import Mathlib

/-!
Verification of the OneLake Iceberg REST catalog proxy (`function_app.py`).

The module is embedded shallowly: environment lookups become an `Env` record
of `Option String` values (`none` = variable unset), the MSAL token request
and the upstream HTTP GET become oracle values describing what the external
services would answer, and each of the five Azure Function handlers becomes a
total Lean function from the request, the environment and the two oracles to
the HTTP response it produces together with the list of upstream catalog
calls it performs.
-/

deriving instance DecidableEq for Except

namespace FabricProxy

/-- Python truthiness of a `str | None` value: `None` and `""` are falsy. -/
def truthy : Option String → Bool
  | none => false
  | some s => s ≠ ""

/-- Python `a or b` on `str | None` values: `a` when truthy, else `b`. -/
def pyOr (a b : Option String) : Option String :=
  match a with
  | none => b
  | some s => if s = "" then b else some s

/-- Python f-string interpolation of a `str | None` value: `None` prints as
the four-character string `None`. -/
def pyStr : Option String → String
  | none => "None"
  | some s => s

/-- The process environment as read by `os.getenv`: `none` means the variable
is unset, `some ""` means it is set to the empty string. Fields follow the
variables the module reads (lines 12-16). -/
structure Env where
  TENANT_ID : Option String
  AZURE_TENANT_ID : Option String
  CLIENT_ID : Option String
  AZURE_CLIENT_ID : Option String
  CLIENT_SECRET : Option String
  AZURE_CLIENT_SECRET : Option String
  ONELAKE_SCOPE : Option String
  ONELAKE_TEST_ENDPOINT : Option String
deriving DecidableEq

/-- Module constant `TENANT_ID = os.getenv("TENANT_ID") or os.getenv("AZURE_TENANT_ID")`. -/
def TENANT_ID (env : Env) : Option String := pyOr env.TENANT_ID env.AZURE_TENANT_ID

/-- Module constant `CLIENT_ID = os.getenv("CLIENT_ID") or os.getenv("AZURE_CLIENT_ID")`. -/
def CLIENT_ID (env : Env) : Option String := pyOr env.CLIENT_ID env.AZURE_CLIENT_ID

/-- Module constant `CLIENT_SECRET = os.getenv("CLIENT_SECRET") or os.getenv("AZURE_CLIENT_SECRET")`. -/
def CLIENT_SECRET (env : Env) : Option String := pyOr env.CLIENT_SECRET env.AZURE_CLIENT_SECRET

/-- Module constant `ONELAKE_SCOPE = os.getenv("ONELAKE_SCOPE", "https://storage.azure.com/.default")`:
the environment value when the variable is set (even to `""`), else the default. -/
def ONELAKE_SCOPE (env : Env) : String :=
  env.ONELAKE_SCOPE.getD "https://storage.azure.com/.default"

/-- Module constant `AUTHORITY = f"https://login.microsoftonline.com/{TENANT_ID}" if TENANT_ID else None`. -/
def AUTHORITY (env : Env) : Option String :=
  if truthy (TENANT_ID env) then
    some ("https://login.microsoftonline.com/" ++ pyStr (TENANT_ID env))
  else none

/-- Module constant `BaseURL` (line 19), never referenced by any handler. -/
def BaseURL : String := "https://onelake.table.fabric.microsoft.com/"

/-- Python exception classes raised or caught by the module: `RuntimeError`
(both raises in `acquire_onelake_token`) and `ValueError` (caught around
`response.json()`). -/
inductive PyError where
  | runtimeError (msg : String)
  | valueError (msg : String)
deriving DecidableEq

/-- The Python class name of an exception: two errors are of the same kind
exactly when their class names coincide. -/
def PyError.kind : PyError → String
  | .runtimeError _ => "RuntimeError"
  | .valueError _ => "ValueError"

/-- Oracle for the MSAL client-credentials request
(`app.acquire_token_for_client`): the result dict either contains an
`access_token` or carries an error description. -/
inductive MsalResult where
  | hasToken (access_token : String)
  | noToken (error_description : String)
deriving DecidableEq

/-- Outcome of `acquire_onelake_token`: the value returned or exception
raised, plus the list of identity-provider token requests made, each recorded
by the scope list passed to `acquire_token_for_client`. -/
structure AcquireOutcome where
  result : Except PyError String
  idpCalls : List (List String)
deriving DecidableEq

/-- `acquire_onelake_token` (lines 21-37): raises `RuntimeError` when the
credential configuration is missing (before any network call), otherwise
performs the token request with the hardcoded scope list
`["https://storage.azure.com/.default"]` and returns the token or raises
`RuntimeError` with the provider's error description. -/
def acquire_onelake_token (env : Env) (msal : MsalResult) : AcquireOutcome :=
  if ¬(truthy (TENANT_ID env) ∧ truthy (CLIENT_ID env) ∧ truthy (CLIENT_SECRET env)) then
    ⟨.error (.runtimeError
      "TENANT_ID, CLIENT_ID and CLIENT_SECRET must be set in environment (local.settings.json for local dev)."),
     []⟩
  else
    match msal with
    | .hasToken t => ⟨.ok t, [["https://storage.azure.com/.default"]]⟩
    | .noToken desc =>
        ⟨.error (.runtimeError ("Failed to acquire token: " ++ desc)),
         [["https://storage.azure.com/.default"]]⟩

/-- JSON values as produced by `response.json()` and consumed by
`json.dumps`. Numbers are modelled as integers; the claims under study do not
depend on numeric formatting. -/
inductive Json where
  | null
  | bool (b : Bool)
  | num (n : Int)
  | str (s : String)
  | arr (xs : List Json)
  | obj (kvs : List (String × Json))

mutual

/-- `json.dumps` with Python's default separators (`", "` and `": "`). -/
def Json.dumps : Json → String
  | .null => "null"
  | .bool true => "true"
  | .bool false => "false"
  | .num n => toString n
  | .str s => "\"" ++ s ++ "\""
  | .arr xs => "[" ++ Json.dumpsArr xs ++ "]"
  | .obj kvs => "\x7b" ++ Json.dumpsObj kvs ++ "\x7d"

/-- Serialize the elements of a JSON array, comma-separated. -/
def Json.dumpsArr : List Json → String
  | [] => ""
  | [j] => Json.dumps j
  | j :: rest => Json.dumps j ++ ", " ++ Json.dumpsArr rest

/-- Serialize the key/value pairs of a JSON object, comma-separated. -/
def Json.dumpsObj : List (String × Json) → String
  | [] => ""
  | [(k, v)] => "\"" ++ k ++ "\": " ++ Json.dumps v
  | (k, v) :: rest => "\"" ++ k ++ "\": " ++ Json.dumps v ++ ", " ++ Json.dumpsObj rest

end

/-- An upstream HTTP response as seen through the `requests` response object:
its status code, its body text, and what `response.json()` yields (`none`
models the `ValueError` raised on a body that is not valid JSON). -/
structure NetResp where
  status_code : Nat
  text : String
  json : Option Json

/-- Oracle for `requests.get(tables_url, ...)`: either the transport fails
before a response exists (`requests` raises a `RequestException` whose
`response` attribute is `None` for pure transport failures, but is kept
optional to model any `RequestException` shape), or a response arrives. -/
inductive NetResult where
  | transport (msg : String) (resp : Option NetResp)
  | response (r : NetResp)

/-- An `azure.functions.HttpResponse`: body, status code, and mimetype
(`none` is the platform default, i.e. the `mimetype=` argument was omitted). -/
structure HttpResponse where
  body : String
  status_code : Nat
  mimetype : Option String
deriving DecidableEq

/-- One outbound catalog call: the URL passed to `requests.get` and the
bearer token placed in the `Authorization` header. -/
structure UpstreamCall where
  url : String
  bearer : String
deriving DecidableEq

/-- The inbound request's query parameters, each `req.params.get(...)`
returning `none` when absent. -/
structure Request where
  workspace : Option String
  dataitem : Option String
  schema : Option String
  table : Option String
deriving DecidableEq

/-- The warehouse identifier `f"/{workspace}/{dataitem}"` built by every
handler from the raw (possibly absent) query parameters. -/
def warehouse_id (workspace dataitem : Option String) : String :=
  "/" ++ pyStr workspace ++ "/" ++ pyStr dataitem

/-- `fn_get_irc_configuration` (lines 41-86): proxy for
`/iceberg/v1/config?warehouse={warehouse}`. Returns the HTTP response and
the list of upstream catalog calls performed. -/
def fn_get_irc_configuration (req : Request) (env : Env) (msal : MsalResult)
    (net : NetResult) : HttpResponse × List UpstreamCall :=
  let workspace := req.workspace
  let dataitem := req.dataitem
  let warehouse_id := "/" ++ pyStr workspace ++ "/" ++ pyStr dataitem
  let token : Option String :=
    match (acquire_onelake_token env msal).result with
    | .ok t => some t
    | .error _ => none
  let tables_url :=
    "https://onelake.dfs.fabric.microsoft.com/iceberg/v1/config?warehouse=" ++ warehouse_id
  match token with
  | none =>
      (⟨"Authentication required for OneLake tables call", 401, none⟩, [])
  | some tok =>
    match net with
    | .transport msg resp =>
      match resp with
      | some r => (⟨r.text, r.status_code, none⟩, [⟨tables_url, tok⟩])
      | none => (⟨msg, 502, none⟩, [⟨tables_url, tok⟩])
    | .response r =>
      if 400 ≤ r.status_code ∧ r.status_code < 600 then
        (⟨r.text, r.status_code, none⟩, [⟨tables_url, tok⟩])
      else
        match r.json with
        | some j =>
            (⟨Json.dumps j, r.status_code, some "application/json"⟩, [⟨tables_url, tok⟩])
        | none => (⟨r.text, r.status_code, none⟩, [⟨tables_url, tok⟩])

/-- `fn_list_namespaces` (lines 91-136): proxy for
`/iceberg/v1/{warehouse}/namespaces`. -/
def fn_list_namespaces (req : Request) (env : Env) (msal : MsalResult)
    (net : NetResult) : HttpResponse × List UpstreamCall :=
  let workspace := req.workspace
  let dataitem := req.dataitem
  let warehouse_id := "/" ++ pyStr workspace ++ "/" ++ pyStr dataitem
  let token : Option String :=
    match (acquire_onelake_token env msal).result with
    | .ok t => some t
    | .error _ => none
  let tables_url :=
    "https://onelake.dfs.fabric.microsoft.com/iceberg/v1/" ++ warehouse_id ++ "/namespaces"
  match token with
  | none =>
      (⟨"Authentication required for OneLake tables call", 401, none⟩, [])
  | some tok =>
    match net with
    | .transport msg resp =>
      match resp with
      | some r => (⟨r.text, r.status_code, none⟩, [⟨tables_url, tok⟩])
      | none => (⟨msg, 502, none⟩, [⟨tables_url, tok⟩])
    | .response r =>
      if 400 ≤ r.status_code ∧ r.status_code < 600 then
        (⟨r.text, r.status_code, none⟩, [⟨tables_url, tok⟩])
      else
        match r.json with
        | some j =>
            (⟨Json.dumps j, r.status_code, some "application/json"⟩, [⟨tables_url, tok⟩])
        | none => (⟨r.text, r.status_code, none⟩, [⟨tables_url, tok⟩])

/-- `fn_get_schema_details` (lines 140-186): proxy for
`/iceberg/v1/{warehouse}/namespaces/{schema}`. -/
def fn_get_schema_details (req : Request) (env : Env) (msal : MsalResult)
    (net : NetResult) : HttpResponse × List UpstreamCall :=
  let workspace := req.workspace
  let dataitem := req.dataitem
  let schema := req.schema
  let warehouse_id := "/" ++ pyStr workspace ++ "/" ++ pyStr dataitem
  let token : Option String :=
    match (acquire_onelake_token env msal).result with
    | .ok t => some t
    | .error _ => none
  let tables_url :=
    "https://onelake.dfs.fabric.microsoft.com/iceberg/v1/" ++ warehouse_id
      ++ "/namespaces/" ++ pyStr schema
  match token with
  | none =>
      (⟨"Authentication required for OneLake tables call", 401, none⟩, [])
  | some tok =>
    match net with
    | .transport msg resp =>
      match resp with
      | some r => (⟨r.text, r.status_code, none⟩, [⟨tables_url, tok⟩])
      | none => (⟨msg, 502, none⟩, [⟨tables_url, tok⟩])
    | .response r =>
      if 400 ≤ r.status_code ∧ r.status_code < 600 then
        (⟨r.text, r.status_code, none⟩, [⟨tables_url, tok⟩])
      else
        match r.json with
        | some j =>
            (⟨Json.dumps j, r.status_code, some "application/json"⟩, [⟨tables_url, tok⟩])
        | none => (⟨r.text, r.status_code, none⟩, [⟨tables_url, tok⟩])

/-- `fn_read_iceberg_catalog` (lines 190-236): proxy for
`/iceberg/v1/{warehouse}/namespaces/{schema}/tables`. -/
def fn_read_iceberg_catalog (req : Request) (env : Env) (msal : MsalResult)
    (net : NetResult) : HttpResponse × List UpstreamCall :=
  let workspace := req.workspace
  let dataitem := req.dataitem
  let schema := req.schema
  let warehouse_id := "/" ++ pyStr workspace ++ "/" ++ pyStr dataitem
  let token : Option String :=
    match (acquire_onelake_token env msal).result with
    | .ok t => some t
    | .error _ => none
  let tables_url :=
    "https://onelake.dfs.fabric.microsoft.com/iceberg/v1/" ++ warehouse_id
      ++ "/namespaces/" ++ pyStr schema ++ "/tables"
  match token with
  | none =>
      (⟨"Authentication required for OneLake tables call", 401, none⟩, [])
  | some tok =>
    match net with
    | .transport msg resp =>
      match resp with
      | some r => (⟨r.text, r.status_code, none⟩, [⟨tables_url, tok⟩])
      | none => (⟨msg, 502, none⟩, [⟨tables_url, tok⟩])
    | .response r =>
      if 400 ≤ r.status_code ∧ r.status_code < 600 then
        (⟨r.text, r.status_code, none⟩, [⟨tables_url, tok⟩])
      else
        match r.json with
        | some j =>
            (⟨Json.dumps j, r.status_code, some "application/json"⟩, [⟨tables_url, tok⟩])
        | none => (⟨r.text, r.status_code, none⟩, [⟨tables_url, tok⟩])

/-- `fn_read_tables` (lines 240-287): proxy for
`/iceberg/v1/{warehouse}/namespaces/{schema}/tables/{table}`. -/
def fn_read_tables (req : Request) (env : Env) (msal : MsalResult)
    (net : NetResult) : HttpResponse × List UpstreamCall :=
  let workspace := req.workspace
  let dataitem := req.dataitem
  let schema := req.schema
  let table := req.table
  let warehouse_id := "/" ++ pyStr workspace ++ "/" ++ pyStr dataitem
  let token : Option String :=
    match (acquire_onelake_token env msal).result with
    | .ok t => some t
    | .error _ => none
  let tables_url :=
    "https://onelake.dfs.fabric.microsoft.com/iceberg/v1/" ++ warehouse_id
      ++ "/namespaces/" ++ pyStr schema ++ "/tables/" ++ pyStr table
  match token with
  | none =>
      (⟨"Authentication required for OneLake tables call", 401, none⟩, [])
  | some tok =>
    match net with
    | .transport msg resp =>
      match resp with
      | some r => (⟨r.text, r.status_code, none⟩, [⟨tables_url, tok⟩])
      | none => (⟨msg, 502, none⟩, [⟨tables_url, tok⟩])
    | .response r =>
      if 400 ≤ r.status_code ∧ r.status_code < 600 then
        (⟨r.text, r.status_code, none⟩, [⟨tables_url, tok⟩])
      else
        match r.json with
        | some j =>
            (⟨Json.dumps j, r.status_code, some "application/json"⟩, [⟨tables_url, tok⟩])
        | none => (⟨r.text, r.status_code, none⟩, [⟨tables_url, tok⟩])

/-- The URL built by `fn_get_irc_configuration`. -/
def url_get_irc_configuration (req : Request) : String :=
  "https://onelake.dfs.fabric.microsoft.com/iceberg/v1/config?warehouse="
    ++ warehouse_id req.workspace req.dataitem

/-- The URL built by `fn_list_namespaces`. -/
def url_list_namespaces (req : Request) : String :=
  "https://onelake.dfs.fabric.microsoft.com/iceberg/v1/"
    ++ warehouse_id req.workspace req.dataitem ++ "/namespaces"

/-- The URL built by `fn_get_schema_details`. -/
def url_get_schema_details (req : Request) : String :=
  "https://onelake.dfs.fabric.microsoft.com/iceberg/v1/"
    ++ warehouse_id req.workspace req.dataitem ++ "/namespaces/" ++ pyStr req.schema

/-- The URL built by `fn_read_iceberg_catalog`. -/
def url_read_iceberg_catalog (req : Request) : String :=
  "https://onelake.dfs.fabric.microsoft.com/iceberg/v1/"
    ++ warehouse_id req.workspace req.dataitem ++ "/namespaces/" ++ pyStr req.schema
    ++ "/tables"

/-- The URL built by `fn_read_tables`. -/
def url_read_tables (req : Request) : String :=
  "https://onelake.dfs.fabric.microsoft.com/iceberg/v1/"
    ++ warehouse_id req.workspace req.dataitem ++ "/namespaces/" ++ pyStr req.schema
    ++ "/tables/" ++ pyStr req.table

/-- The response part common to all five handlers, as a function of the
token-acquisition result and the upstream oracle. Each handler is proved
equal to this below; it is a proof-layer factoring, not a source function. -/
def proxyResp (tokRes : Except PyError String) (net : NetResult) : HttpResponse :=
  match tokRes with
  | .error _ => ⟨"Authentication required for OneLake tables call", 401, none⟩
  | .ok _ =>
    match net with
    | .transport msg resp =>
      match resp with
      | some r => ⟨r.text, r.status_code, none⟩
      | none => ⟨msg, 502, none⟩
    | .response r =>
      if 400 ≤ r.status_code ∧ r.status_code < 600 then
        ⟨r.text, r.status_code, none⟩
      else
        match r.json with
        | some j => ⟨Json.dumps j, r.status_code, some "application/json"⟩
        | none => ⟨r.text, r.status_code, none⟩

/-- The upstream calls common to all five handlers: exactly one GET to the
built URL when a token was obtained, none otherwise. -/
def proxyCalls (tokRes : Except PyError String) (url : String) : List UpstreamCall :=
  match tokRes with
  | .ok t => [⟨url, t⟩]
  | .error _ => []

/-- The five handlers, in source order. -/
def handlers :
    List (Request → Env → MsalResult → NetResult → HttpResponse × List UpstreamCall) :=
  [fn_get_irc_configuration, fn_list_namespaces, fn_get_schema_details,
   fn_read_iceberg_catalog, fn_read_tables]

/-- The URL builders of the five handlers, in the same order as `handlers`. -/
def handlerUrls : List (Request → String) :=
  [url_get_irc_configuration, url_list_namespaces, url_get_schema_details,
   url_read_iceberg_catalog, url_read_tables]

/-- A fully-populated credential environment, for concrete evaluations. -/
def envFull : Env :=
  ⟨some "tenant0", none, some "client0", none, some "secret0", none, none, none⟩

/-- An environment with every variable unset. -/
def envEmpty : Env := ⟨none, none, none, none, none, none, none, none⟩

/-- An environment whose client secret is missing (other credentials set). -/
def envNoSecret : Env :=
  ⟨some "tenant0", none, some "client0", none, none, none, none, none⟩

/-- The sample request of the specification: workspace `ws1`, dataitem
`item1.Lakehouse`, schema `s1`, table `t1`. -/
def reqSample : Request := ⟨some "ws1", some "item1.Lakehouse", some "s1", some "t1"⟩

/-- A request with every query parameter absent. -/
def reqAbsent : Request := ⟨none, none, none, none⟩

lemma fn_get_irc_configuration_eq (req : Request) (env : Env) (msal : MsalResult)
    (net : NetResult) :
    fn_get_irc_configuration req env msal net =
      (proxyResp (acquire_onelake_token env msal).result net,
       proxyCalls (acquire_onelake_token env msal).result (url_get_irc_configuration req)) := by
  unfold fn_get_irc_configuration proxyResp proxyCalls url_get_irc_configuration warehouse_id
  cases h : (acquire_onelake_token env msal).result with
  | error e => rfl
  | ok t =>
    cases net with
    | transport msg resp => cases resp <;> rfl
    | response r =>
      by_cases hs : 400 ≤ r.status_code ∧ r.status_code < 600
      · simp [hs]
      · simp [hs]; cases r.json <;> rfl

lemma fn_list_namespaces_eq (req : Request) (env : Env) (msal : MsalResult)
    (net : NetResult) :
    fn_list_namespaces req env msal net =
      (proxyResp (acquire_onelake_token env msal).result net,
       proxyCalls (acquire_onelake_token env msal).result (url_list_namespaces req)) := by
  unfold fn_list_namespaces proxyResp proxyCalls url_list_namespaces warehouse_id
  cases h : (acquire_onelake_token env msal).result with
  | error e => rfl
  | ok t =>
    cases net with
    | transport msg resp => cases resp <;> rfl
    | response r =>
      by_cases hs : 400 ≤ r.status_code ∧ r.status_code < 600
      · simp [hs]
      · simp [hs]; cases r.json <;> rfl

lemma fn_get_schema_details_eq (req : Request) (env : Env) (msal : MsalResult)
    (net : NetResult) :
    fn_get_schema_details req env msal net =
      (proxyResp (acquire_onelake_token env msal).result net,
       proxyCalls (acquire_onelake_token env msal).result (url_get_schema_details req)) := by
  unfold fn_get_schema_details proxyResp proxyCalls url_get_schema_details warehouse_id
  cases h : (acquire_onelake_token env msal).result with
  | error e => rfl
  | ok t =>
    cases net with
    | transport msg resp => cases resp <;> rfl
    | response r =>
      by_cases hs : 400 ≤ r.status_code ∧ r.status_code < 600
      · simp [hs]
      · simp [hs]; cases r.json <;> rfl

lemma fn_read_iceberg_catalog_eq (req : Request) (env : Env) (msal : MsalResult)
    (net : NetResult) :
    fn_read_iceberg_catalog req env msal net =
      (proxyResp (acquire_onelake_token env msal).result net,
       proxyCalls (acquire_onelake_token env msal).result (url_read_iceberg_catalog req)) := by
  unfold fn_read_iceberg_catalog proxyResp proxyCalls url_read_iceberg_catalog warehouse_id
  cases h : (acquire_onelake_token env msal).result with
  | error e => rfl
  | ok t =>
    cases net with
    | transport msg resp => cases resp <;> rfl
    | response r =>
      by_cases hs : 400 ≤ r.status_code ∧ r.status_code < 600
      · simp [hs]
      · simp [hs]; cases r.json <;> rfl

lemma fn_read_tables_eq (req : Request) (env : Env) (msal : MsalResult)
    (net : NetResult) :
    fn_read_tables req env msal net =
      (proxyResp (acquire_onelake_token env msal).result net,
       proxyCalls (acquire_onelake_token env msal).result (url_read_tables req)) := by
  unfold fn_read_tables proxyResp proxyCalls url_read_tables warehouse_id
  cases h : (acquire_onelake_token env msal).result with
  | error e => rfl
  | ok t =>
    cases net with
    | transport msg resp => cases resp <;> rfl
    | response r =>
      by_cases hs : 400 ≤ r.status_code ∧ r.status_code < 600
      · simp [hs]
      · simp [hs]; cases r.json <;> rfl

/-- Every handler in the list is characterized by `proxyResp`/`proxyCalls`
with the matching URL builder. -/
lemma handlers_eq :
    ∀ f ∈ handlers, ∃ u ∈ handlerUrls,
      ∀ (req : Request) (env : Env) (msal : MsalResult) (net : NetResult),
        f req env msal net =
          (proxyResp (acquire_onelake_token env msal).result net,
           proxyCalls (acquire_onelake_token env msal).result (u req)) := by
  intro f hf
  simp only [handlers, List.mem_cons, List.not_mem_nil, or_false] at hf
  rcases hf with h | h | h | h | h <;> subst h
  · exact ⟨url_get_irc_configuration, by simp [handlerUrls], fn_get_irc_configuration_eq⟩
  · exact ⟨url_list_namespaces, by simp [handlerUrls], fn_list_namespaces_eq⟩
  · exact ⟨url_get_schema_details, by simp [handlerUrls], fn_get_schema_details_eq⟩
  · exact ⟨url_read_iceberg_catalog, by simp [handlerUrls], fn_read_iceberg_catalog_eq⟩
  · exact ⟨url_read_tables, by simp [handlerUrls], fn_read_tables_eq⟩

/-- Every URL a handler builds extends the hardcoded catalog prefix. -/
lemma handlerUrls_prefix :
    ∀ u ∈ handlerUrls, ∀ req : Request,
      ∃ rest : String,
        u req = "https://onelake.dfs.fabric.microsoft.com/iceberg/v1" ++ rest := by
  intro u hu req
  simp only [handlerUrls, List.mem_cons, List.not_mem_nil, or_false] at hu
  rcases hu with h | h | h | h | h <;> subst h
  · exact ⟨"/config?warehouse=" ++ warehouse_id req.workspace req.dataitem, rfl⟩
  · exact ⟨"/" ++ warehouse_id req.workspace req.dataitem ++ "/namespaces", rfl⟩
  · exact ⟨"/" ++ warehouse_id req.workspace req.dataitem ++ "/namespaces/"
      ++ pyStr req.schema, rfl⟩
  · exact ⟨"/" ++ warehouse_id req.workspace req.dataitem ++ "/namespaces/"
      ++ pyStr req.schema ++ "/tables", rfl⟩
  · exact ⟨"/" ++ warehouse_id req.workspace req.dataitem ++ "/namespaces/"
      ++ pyStr req.schema ++ "/tables/" ++ pyStr req.table, rfl⟩

/-- A string extending the hardcoded `dfs` catalog prefix never extends the
unused `BaseURL` constant: the two disagree at character 16 (`d` vs `t`). -/
lemma hard_prefix_ne_baseurl (s t : String) :
    "https://onelake.dfs.fabric.microsoft.com/iceberg/v1" ++ s ≠
      "https://onelake.table.fabric.microsoft.com/" ++ t := by
  intro h
  have hd := congrArg String.data h
  rw [String.data_append, String.data_append] at hd
  have h16 := congrArg (fun l => l[16]?) hd
  simp only at h16
  rw [List.getElem?_append_left (by decide), List.getElem?_append_left (by decide)] at h16
  simp at h16

/-- Claim C3: for every pair of workspace and dataitem strings the warehouse
identifier is the slash-joined `/{workspace}/{dataitem}` with no
normalization, each of the five routes builds exactly its documented upstream
URL from it, and on the sample inputs (workspace `ws1`, dataitem
`item1.Lakehouse`, schema `s1`, table `t1`) the table-detail endpoint's URL
path is `/iceberg/v1//ws1/item1.Lakehouse/namespaces/s1/tables/t1` — doubled
slash after `v1` — which is also the URL of the upstream call the handler
performs. -/
theorem C3_warehouse_id_and_paths :
    (∀ w d : String, warehouse_id (some w) (some d) = "/" ++ w ++ "/" ++ d) ∧
    url_get_irc_configuration reqSample =
      "https://onelake.dfs.fabric.microsoft.com"
        ++ "/iceberg/v1/config?warehouse=/ws1/item1.Lakehouse" ∧
    url_list_namespaces reqSample =
      "https://onelake.dfs.fabric.microsoft.com"
        ++ "/iceberg/v1//ws1/item1.Lakehouse/namespaces" ∧
    url_get_schema_details reqSample =
      "https://onelake.dfs.fabric.microsoft.com"
        ++ "/iceberg/v1//ws1/item1.Lakehouse/namespaces/s1" ∧
    url_read_iceberg_catalog reqSample =
      "https://onelake.dfs.fabric.microsoft.com"
        ++ "/iceberg/v1//ws1/item1.Lakehouse/namespaces/s1/tables" ∧
    url_read_tables reqSample =
      "https://onelake.dfs.fabric.microsoft.com"
        ++ "/iceberg/v1//ws1/item1.Lakehouse/namespaces/s1/tables/t1" ∧
    ∀ net : NetResult,
      (fn_read_tables reqSample envFull (.hasToken "tok") net).2 =
        [⟨"https://onelake.dfs.fabric.microsoft.com"
            ++ "/iceberg/v1//ws1/item1.Lakehouse/namespaces/s1/tables/t1", "tok"⟩] := by
  refine ⟨fun w d => rfl, rfl, rfl, rfl, rfl, rfl, fun net => ?_⟩
  rw [fn_read_tables_eq]
  rfl

/-- Claim C9: the five handlers differ only in the parameters they read and
the URL they build; for every request, environment, token outcome and
upstream outcome, all five return the identical HTTP response (status, body
and content type). -/
theorem C9_handlers_identical_responses (req : Request) (env : Env)
    (msal : MsalResult) (net : NetResult) :
    (fn_list_namespaces req env msal net).1 = (fn_get_irc_configuration req env msal net).1 ∧
    (fn_get_schema_details req env msal net).1 = (fn_get_irc_configuration req env msal net).1 ∧
    (fn_read_iceberg_catalog req env msal net).1 = (fn_get_irc_configuration req env msal net).1 ∧
    (fn_read_tables req env msal net).1 = (fn_get_irc_configuration req env msal net).1 := by
  rw [fn_list_namespaces_eq, fn_get_schema_details_eq, fn_read_iceberg_catalog_eq,
    fn_read_tables_eq, fn_get_irc_configuration_eq]
  exact ⟨rfl, rfl, rfl, rfl⟩

/-- Claim C1 counterexample: on a request whose token acquisition fails
(missing credentials), the handler does return status 401 without calling
upstream, but the body is `Authentication required for OneLake tables call`,
not the claimed exact body `Authentication required`. -/
theorem C1_counterexample :
    (acquire_onelake_token envEmpty (.hasToken "tok")).result =
      .error (.runtimeError
        "TENANT_ID, CLIENT_ID and CLIENT_SECRET must be set in environment (local.settings.json for local dev).") ∧
    (fn_get_irc_configuration reqSample envEmpty (.hasToken "tok")
        (.response ⟨200, "x", none⟩)).1.status_code = 401 ∧
    (fn_get_irc_configuration reqSample envEmpty (.hasToken "tok")
        (.response ⟨200, "x", none⟩)).1.body ≠ "Authentication required" := by
  refine ⟨rfl, rfl, ?_⟩
  decide

/-- Claim C1 as amended: whenever token acquisition raises, every one of the
five handlers catches the exception (never yielding a 500), checks token
absence separately, and returns exactly HTTP 401 with body `Authentication
required for OneLake tables call` and default content type, performing no
upstream catalog call. -/
theorem C1_auth_failure_401 :
    ∀ f ∈ handlers, ∀ (req : Request) (env : Env) (msal : MsalResult) (net : NetResult),
      (∃ e : PyError, (acquire_onelake_token env msal).result = .error e) →
      f req env msal net =
        (⟨"Authentication required for OneLake tables call", 401, none⟩, []) := by
  intro f hf req env msal net h
  obtain ⟨u, _, heq⟩ := handlers_eq f hf
  obtain ⟨e, he⟩ := h
  rw [heq, he]
  rfl

/-- Witness for C1: the first handler, on a concrete request with an empty
environment, returns the 401 response and makes no upstream call. -/
theorem C1_auth_failure_401_witness :
    fn_get_irc_configuration reqSample envEmpty (.hasToken "tok")
        (.response ⟨200, "x", none⟩) =
      (⟨"Authentication required for OneLake tables call", 401, none⟩, []) :=
  C1_auth_failure_401 fn_get_irc_configuration (List.Mem.head _) reqSample envEmpty
    (.hasToken "tok") (.response ⟨200, "x", none⟩)
    ⟨.runtimeError
      "TENANT_ID, CLIENT_ID and CLIENT_SECRET must be set in environment (local.settings.json for local dev).",
     rfl⟩

/-- Claim C2: `ONELAKE_SCOPE` reads a configurable scope from the environment
defaulting to the storage scope, yet every identity-provider token request
made by `acquire_onelake_token` passes only the hardcoded literal scope, and
the configured value is never consulted: changing it changes nothing about
token acquisition. -/
theorem C2_scope_inconsistency :
    (∀ env : Env, env.ONELAKE_SCOPE = none →
      ONELAKE_SCOPE env = "https://storage.azure.com/.default") ∧
    (∀ (env : Env) (s : String), env.ONELAKE_SCOPE = some s → ONELAKE_SCOPE env = s) ∧
    (∀ (env : Env) (msal : MsalResult),
      ∀ scopes ∈ (acquire_onelake_token env msal).idpCalls,
        scopes = ["https://storage.azure.com/.default"]) ∧
    (∀ (env : Env) (msal : MsalResult) (s : Option String),
      acquire_onelake_token { env with ONELAKE_SCOPE := s } msal =
        acquire_onelake_token env msal) := by
  refine ⟨fun env h => ?_, fun env s h => ?_, fun env msal scopes hm => ?_,
    fun env msal s => rfl⟩
  · simp [ONELAKE_SCOPE, h]
  · simp [ONELAKE_SCOPE, h]
  · unfold acquire_onelake_token at hm
    split at hm
    · simp at hm
    · cases msal <;> simp_all

/-- Witness for C2: with the variable unset the scope defaults to the storage
scope; the token request of a concrete acquisition uses the hardcoded
literal; and overriding the configured scope leaves acquisition unchanged. -/
theorem C2_scope_inconsistency_witness :
    ONELAKE_SCOPE envEmpty = "https://storage.azure.com/.default" ∧
    ONELAKE_SCOPE { envEmpty with ONELAKE_SCOPE := some "custom-scope" } = "custom-scope" ∧
    (["https://storage.azure.com/.default"] : List String) =
      ["https://storage.azure.com/.default"] ∧
    acquire_onelake_token { envFull with ONELAKE_SCOPE := some "custom-scope" }
        (.hasToken "tok") =
      acquire_onelake_token envFull (.hasToken "tok") :=
  ⟨C2_scope_inconsistency.1 envEmpty rfl,
   C2_scope_inconsistency.2.1 { envEmpty with ONELAKE_SCOPE := some "custom-scope" }
     "custom-scope" rfl,
   C2_scope_inconsistency.2.2.1 envFull (.hasToken "tok")
     ["https://storage.azure.com/.default"] (by decide),
   C2_scope_inconsistency.2.2.2 envFull (.hasToken "tok") (some "custom-scope")⟩

/-- Claim C4: once a token was obtained, a transport failure with no response
object yields HTTP 502 with the stringified error as body, while a failure
carrying a response object — including a non-2xx status raised by
`raise_for_status` — is relayed with the upstream's own status code and body
text verbatim, for every handler. -/
theorem C4_upstream_failure_translation :
    ∀ f ∈ handlers, ∀ (req : Request) (env : Env) (msal : MsalResult) (tok : String),
      (acquire_onelake_token env msal).result = .ok tok →
      (∀ msg : String,
        (f req env msal (.transport msg none)).1 = ⟨msg, 502, none⟩) ∧
      (∀ (msg : String) (r : NetResp),
        (f req env msal (.transport msg (some r))).1 = ⟨r.text, r.status_code, none⟩) ∧
      (∀ r : NetResp, 400 ≤ r.status_code → r.status_code < 600 →
        (f req env msal (.response r)).1 = ⟨r.text, r.status_code, none⟩) := by
  intro f hf req env msal tok htok
  obtain ⟨u, _, heq⟩ := handlers_eq f hf
  refine ⟨fun msg => ?_, fun msg r => ?_, fun r h4 h6 => ?_⟩
  · rw [heq]; simp [proxyResp, htok]
  · rw [heq]; simp [proxyResp, htok]
  · rw [heq]; simp [proxyResp, htok, h4, h6]

/-- Witness for C4: with a token in hand, a concrete transport failure maps
to 502 `boom`, and a concrete upstream 404 `not found` is relayed as-is. -/
theorem C4_upstream_failure_translation_witness :
    (fn_get_irc_configuration reqSample envFull (.hasToken "tok")
        (.transport "boom" none)).1 = ⟨"boom", 502, none⟩ ∧
    (fn_get_irc_configuration reqSample envFull (.hasToken "tok")
        (.transport "err" (some ⟨503, "busy", none⟩))).1 = ⟨"busy", 503, none⟩ ∧
    (fn_get_irc_configuration reqSample envFull (.hasToken "tok")
        (.response ⟨404, "not found", none⟩)).1 = ⟨"not found", 404, none⟩ :=
  ⟨(C4_upstream_failure_translation fn_get_irc_configuration (List.Mem.head _)
      reqSample envFull (.hasToken "tok") "tok" rfl).1 "boom",
   (C4_upstream_failure_translation fn_get_irc_configuration (List.Mem.head _)
      reqSample envFull (.hasToken "tok") "tok" rfl).2.1 "err" ⟨503, "busy", none⟩,
   (C4_upstream_failure_translation fn_get_irc_configuration (List.Mem.head _)
      reqSample envFull (.hasToken "tok") "tok" rfl).2.2 ⟨404, "not found", none⟩
     (by decide) (by decide)⟩

/-- Claim C5: on a successful upstream response (no `raise_for_status`
exception), a body that parses as JSON is returned re-serialized with the
upstream status and content type `application/json`; a body that does not
parse is returned as raw text with the upstream status; and the
`application/json` content type appears only on that JSON-success path. -/
theorem C5_success_body_translation :
    ∀ f ∈ handlers, ∀ (req : Request) (env : Env) (msal : MsalResult),
      (∀ (tok : String) (r : NetResp) (j : Json),
        (acquire_onelake_token env msal).result = .ok tok →
        ¬(400 ≤ r.status_code ∧ r.status_code < 600) →
        r.json = some j →
        (f req env msal (.response r)).1 =
          ⟨Json.dumps j, r.status_code, some "application/json"⟩) ∧
      (∀ (tok : String) (r : NetResp),
        (acquire_onelake_token env msal).result = .ok tok →
        ¬(400 ≤ r.status_code ∧ r.status_code < 600) →
        r.json = none →
        (f req env msal (.response r)).1 = ⟨r.text, r.status_code, none⟩) ∧
      (∀ net : NetResult,
        (f req env msal net).1.mimetype = some "application/json" →
        ∃ (tok : String) (r : NetResp) (j : Json),
          (acquire_onelake_token env msal).result = .ok tok ∧
          net = .response r ∧ r.json = some j ∧
          ¬(400 ≤ r.status_code ∧ r.status_code < 600) ∧
          (f req env msal net).1.body = Json.dumps j ∧
          (f req env msal net).1.status_code = r.status_code) := by
  intro f hf req env msal
  obtain ⟨u, _, heq⟩ := handlers_eq f hf
  refine ⟨fun tok r j htok hs hj => ?_, fun tok r htok hs hj => ?_, fun net hm => ?_⟩
  · rw [heq]; simp [proxyResp, htok, hs, hj]
  · rw [heq]; simp [proxyResp, htok, hs, hj]
  · rw [heq] at hm ⊢
    cases htok : (acquire_onelake_token env msal).result with
    | error e => rw [htok] at hm; simp [proxyResp] at hm
    | ok t =>
      rw [htok] at hm
      cases net with
      | transport msg resp =>
        cases resp <;> simp [proxyResp] at hm
      | response r =>
        by_cases hs : 400 ≤ r.status_code ∧ r.status_code < 600
        · simp [proxyResp, hs] at hm
        · cases hj : r.json with
          | none => simp [proxyResp, hs, hj] at hm
          | some j =>
            exact ⟨t, r, j, rfl, rfl, hj, hs,
              by simp [proxyResp, hs, hj], by simp [proxyResp, hs, hj]⟩

/-- Witness for C5: a concrete 200 response whose body parses as the object
`\x7b"ok": true\x7d` is re-serialized with content type `application/json`,
and a concrete 200 response that fails to parse is relayed as raw text. -/
theorem C5_success_body_translation_witness :
    (fn_get_irc_configuration reqSample envFull (.hasToken "tok")
        (.response ⟨200, "\x7b\"ok\":true\x7d", some (Json.obj [("ok", Json.bool true)])⟩)).1 =
      ⟨"\x7b\"ok\": true\x7d", 200, some "application/json"⟩ ∧
    (fn_get_irc_configuration reqSample envFull (.hasToken "tok")
        (.response ⟨200, "plain text", none⟩)).1 = ⟨"plain text", 200, none⟩ :=
  ⟨(C5_success_body_translation fn_get_irc_configuration (List.Mem.head _)
      reqSample envFull (.hasToken "tok")).1 "tok"
      ⟨200, "\x7b\"ok\":true\x7d", some (Json.obj [("ok", Json.bool true)])⟩
      (Json.obj [("ok", Json.bool true)]) rfl (by decide) rfl,
   (C5_success_body_translation fn_get_irc_configuration (List.Mem.head _)
      reqSample envFull (.hasToken "tok")).2.1 "tok" ⟨200, "plain text", none⟩
      rfl (by decide) rfl⟩

/-- Claim C6 counterexample: the failure raised on missing configuration and
the failure raised when the identity provider rejects the request are the
same Python exception class (`RuntimeError`), not distinct error kinds. -/
theorem C6_counterexample :
    (acquire_onelake_token envNoSecret (.hasToken "tok")).result =
      .error (.runtimeError
        "TENANT_ID, CLIENT_ID and CLIENT_SECRET must be set in environment (local.settings.json for local dev).") ∧
    (acquire_onelake_token envFull (.noToken "provider rejected the request")).result =
      .error (.runtimeError ("Failed to acquire token: " ++ "provider rejected the request")) ∧
    PyError.kind
        (.runtimeError
          "TENANT_ID, CLIENT_ID and CLIENT_SECRET must be set in environment (local.settings.json for local dev).") =
      PyError.kind
        (.runtimeError ("Failed to acquire token: " ++ "provider rejected the request")) :=
  ⟨rfl, rfl, rfl⟩

/-- Claim C6 as amended: if any of the tenant identifier, client identifier
or client secret is empty or unset, `acquire_onelake_token` fails
immediately, before any identity-provider network call, with a
`RuntimeError` naming the missing configuration — the same exception class
as a provider rejection, distinguished only by its message. -/
theorem C6_missing_config_fails_early :
    ∀ (env : Env) (msal : MsalResult),
      ¬(truthy (TENANT_ID env) ∧ truthy (CLIENT_ID env) ∧ truthy (CLIENT_SECRET env)) →
      acquire_onelake_token env msal =
        ⟨.error (.runtimeError
          "TENANT_ID, CLIENT_ID and CLIENT_SECRET must be set in environment (local.settings.json for local dev)."),
         []⟩ := by
  intro env msal h
  rw [acquire_onelake_token.eq_def, if_pos h]

/-- Witness for C6: with the client secret unset, acquisition fails with the
configuration `RuntimeError` and the identity-provider call list is empty. -/
theorem C6_missing_config_fails_early_witness :
    acquire_onelake_token envNoSecret (.hasToken "tok") =
      ⟨.error (.runtimeError
        "TENANT_ID, CLIENT_ID and CLIENT_SECRET must be set in environment (local.settings.json for local dev)."),
       []⟩ :=
  C6_missing_config_fails_early envNoSecret (.hasToken "tok") (by decide)

/-- Claim C7 counterexample: with every required query parameter absent (and
a token available), `fn_read_tables` does not return HTTP 400; it proceeds,
interpolating the literal string `None` into the upstream URL, and relays
the upstream's 200. -/
theorem C7_counterexample :
    (fn_read_tables reqAbsent envFull (.hasToken "tok")
        (.response ⟨200, "x", none⟩)).1.status_code = 200 ∧
    (fn_read_tables reqAbsent envFull (.hasToken "tok")
        (.response ⟨200, "x", none⟩)).2 =
      [⟨"https://onelake.dfs.fabric.microsoft.com"
          ++ "/iceberg/v1//None/None/namespaces/None/tables/None", "tok"⟩] := by
  refine ⟨rfl, ?_⟩
  decide

/-- Claim C7 as amended: an absent required query parameter is not validated
and never produces a local HTTP 400; Python's `None` stringification is
interpolated into the upstream URL, the upstream call proceeds, and the
response is entirely independent of which parameters were supplied. -/
theorem C7_absent_params_interpolated :
    ∀ (env : Env) (msal : MsalResult) (net : NetResult) (tok : String),
      (acquire_onelake_token env msal).result = .ok tok →
      (fn_read_tables reqAbsent env msal net).2 =
        [⟨"https://onelake.dfs.fabric.microsoft.com"
            ++ "/iceberg/v1//None/None/namespaces/None/tables/None", tok⟩] ∧
      ∀ req : Request,
        (fn_read_tables reqAbsent env msal net).1 = (fn_read_tables req env msal net).1 := by
  intro env msal net tok htok
  constructor
  · rw [fn_read_tables_eq, htok]
    rfl
  · intro req
    rw [fn_read_tables_eq, fn_read_tables_eq]

/-- Witness for C7: concrete token-bearing request with all parameters
absent calls the all-`None` URL and answers exactly as the sample request
does. -/
theorem C7_absent_params_interpolated_witness :
    (fn_read_tables reqAbsent envFull (.hasToken "tok")
        (.response ⟨200, "x", none⟩)).2 =
      [⟨"https://onelake.dfs.fabric.microsoft.com"
          ++ "/iceberg/v1//None/None/namespaces/None/tables/None", "tok"⟩] ∧
    (fn_read_tables reqAbsent envFull (.hasToken "tok")
        (.response ⟨200, "x", none⟩)).1 =
      (fn_read_tables reqSample envFull (.hasToken "tok")
        (.response ⟨200, "x", none⟩)).1 :=
  ⟨(C7_absent_params_interpolated envFull (.hasToken "tok")
      (.response ⟨200, "x", none⟩) "tok" rfl).1,
   (C7_absent_params_interpolated envFull (.hasToken "tok")
      (.response ⟨200, "x", none⟩) "tok" rfl).2 reqSample⟩

/-- Claim C8: every handler, on every input, yields a well-formed HTTP
response — the 401 authentication response, the 502 transport response, a
verbatim relay of an upstream response, or the re-serialized JSON success —
never an uncaught token-acquisition or upstream-call exception. -/
theorem C8_always_wellformed_response :
    ∀ f ∈ handlers, ∀ (req : Request) (env : Env) (msal : MsalResult) (net : NetResult),
      (f req env msal net).1 =
          ⟨"Authentication required for OneLake tables call", 401, none⟩ ∨
      (∃ msg : String, net = .transport msg none ∧
        (f req env msal net).1 = ⟨msg, 502, none⟩) ∨
      (∃ r : NetResp,
        (f req env msal net).1 = ⟨r.text, r.status_code, none⟩ ∧
        (net = .response r ∨ ∃ msg : String, net = .transport msg (some r))) ∨
      (∃ (r : NetResp) (j : Json), net = .response r ∧ r.json = some j ∧
        (f req env msal net).1 =
          ⟨Json.dumps j, r.status_code, some "application/json"⟩) := by
  intro f hf req env msal net
  obtain ⟨u, _, heq⟩ := handlers_eq f hf
  rw [heq]
  cases htok : (acquire_onelake_token env msal).result with
  | error e => exact Or.inl rfl
  | ok t =>
    cases net with
    | transport msg resp =>
      cases resp with
      | none => exact Or.inr (Or.inl ⟨msg, rfl, rfl⟩)
      | some r => exact Or.inr (Or.inr (Or.inl ⟨r, rfl, Or.inr ⟨msg, rfl⟩⟩))
    | response r =>
      by_cases hs : 400 ≤ r.status_code ∧ r.status_code < 600
      · exact Or.inr (Or.inr (Or.inl ⟨r, by simp [proxyResp, hs], Or.inl rfl⟩))
      · cases hj : r.json with
        | none =>
            exact Or.inr (Or.inr (Or.inl ⟨r, by simp [proxyResp, hs, hj], Or.inl rfl⟩))
        | some j =>
            exact Or.inr (Or.inr (Or.inr ⟨r, j, rfl, hj, by simp [proxyResp, hs, hj]⟩))

/-- Witness for C8: the first handler on a concrete no-credentials request
falls into one of the enumerated well-formed response shapes. -/
theorem C8_always_wellformed_response_witness :
    (fn_get_irc_configuration reqSample envEmpty (.hasToken "tok")
        (.response ⟨200, "x", none⟩)).1 =
          ⟨"Authentication required for OneLake tables call", 401, none⟩ ∨
    (∃ msg : String, (.response ⟨200, "x", none⟩ : NetResult) = .transport msg none ∧
      (fn_get_irc_configuration reqSample envEmpty (.hasToken "tok")
          (.response ⟨200, "x", none⟩)).1 = ⟨msg, 502, none⟩) ∨
    (∃ r : NetResp,
      (fn_get_irc_configuration reqSample envEmpty (.hasToken "tok")
          (.response ⟨200, "x", none⟩)).1 = ⟨r.text, r.status_code, none⟩ ∧
      ((.response ⟨200, "x", none⟩ : NetResult) = .response r ∨
        ∃ msg : String, (.response ⟨200, "x", none⟩ : NetResult) = .transport msg (some r))) ∨
    (∃ (r : NetResp) (j : Json), (.response ⟨200, "x", none⟩ : NetResult) = .response r ∧
      r.json = some j ∧
      (fn_get_irc_configuration reqSample envEmpty (.hasToken "tok")
          (.response ⟨200, "x", none⟩)).1 =
        ⟨Json.dumps j, r.status_code, some "application/json"⟩) :=
  C8_always_wellformed_response fn_get_irc_configuration (List.Mem.head _) reqSample
    envEmpty (.hasToken "tok") (.response ⟨200, "x", none⟩)

/-- Claim C10: the module constant `BaseURL` holds the `table` host and is
never used: every upstream call of every handler targets a URL extending the
hardcoded literal `https://onelake.dfs.fabric.microsoft.com/iceberg/v1`, and
no such URL extends `BaseURL`. -/
theorem C10_baseurl_never_used :
    BaseURL = "https://onelake.table.fabric.microsoft.com/" ∧
    ∀ f ∈ handlers, ∀ (req : Request) (env : Env) (msal : MsalResult) (net : NetResult),
      ∀ c ∈ (f req env msal net).2,
        (∃ rest : String,
          c.url = "https://onelake.dfs.fabric.microsoft.com/iceberg/v1" ++ rest) ∧
        ∀ rest : String, c.url ≠ BaseURL ++ rest := by
  refine ⟨rfl, ?_⟩
  intro f hf req env msal net c hc
  obtain ⟨u, hu, heq⟩ := handlers_eq f hf
  rw [heq] at hc
  obtain ⟨rest, hrest⟩ := handlerUrls_prefix u hu req
  have hcurl : c.url = u req := by
    revert hc
    unfold proxyCalls
    cases (acquire_onelake_token env msal).result with
    | ok t => intro hc; simp at hc; rw [hc]
    | error e => intro hc; simp at hc
  rw [hcurl, hrest]
  refine ⟨⟨rest, rfl⟩, fun rest2 => ?_⟩
  rw [show BaseURL = "https://onelake.table.fabric.microsoft.com/" from rfl]
  exact hard_prefix_ne_baseurl rest rest2

/-- Witness for C10: the single call of a concrete `fn_get_irc_configuration`
invocation extends the hardcoded `dfs` prefix and does not extend
`BaseURL`. -/
theorem C10_baseurl_never_used_witness :
    (∃ rest : String,
      (UpstreamCall.mk
          ("https://onelake.dfs.fabric.microsoft.com"
            ++ "/iceberg/v1/config?warehouse=/ws1/item1.Lakehouse") "tok").url =
        "https://onelake.dfs.fabric.microsoft.com/iceberg/v1" ++ rest) ∧
    ∀ rest : String,
      (UpstreamCall.mk
          ("https://onelake.dfs.fabric.microsoft.com"
            ++ "/iceberg/v1/config?warehouse=/ws1/item1.Lakehouse") "tok").url ≠
        BaseURL ++ rest :=
  C10_baseurl_never_used.2 fn_get_irc_configuration (List.Mem.head _) reqSample
    envFull (.hasToken "tok") (.response ⟨200, "x", none⟩) _ (by decide)

end FabricProxy
